import Mathlib

/-!
Verification of the heroku-redis-api repository: a shallow embedding in
Lean 4 of the Redis client retry/backoff policy (`retry_strategy`, part of
`redisOptions` in `src/redisClient.js`) and of the Express-style middleware
functions (`forceDomainSSL`, `skipMap`, `whitelistIp` and friends), with
theorems settling the specification's claims about them.

JavaScript `string | undefined` values (environment variables read without
a default, header lookups) are embedded as `Option String`, with `none`
playing the role of `undefined`; `===` on such values coincides with
equality of `Option String`.  Template interpolation of a possibly
undefined value is embedded by `jsStr`, which renders `none` as the string
"undefined", exactly as JavaScript template literals do.
-/

namespace HerokuRedisApi

/-- Embedding of the `error` object carried by the retry-strategy options:
only its `code` field is consulted, and that field may be absent. -/
structure RedisError where
  code : Option String
deriving DecidableEq, Repr

/-- Embedding of the options object handed to `retry_strategy` by the
redis client library: the most recent error (if any), the cumulative retry
time in milliseconds, and the attempt counter. -/
structure RetryOptions where
  error : Option RedisError
  total_retry_time : Nat
  attempt : Nat
deriving DecidableEq, Repr

/-- The value returned by `retry_strategy`: a JS `Error` (fatal, retries
stop and the error is surfaced), `undefined` (silent stop), or a number of
milliseconds to wait before the next attempt. -/
inductive RetryDecision where
  | fatal (msg : String)
  | stop
  | wait (ms : Nat)
deriving DecidableEq, Repr

/-- Embedding of the guard `options.error && options.error.code === 'ECONNREFUSED'`. -/
def errIsRefused : Option RedisError → Bool
  | some e => e.code = some "ECONNREFUSED"
  | none => false

/-- Embedding of `retry_strategy` from `redisOptions` in `src/redisClient.js`:
refused-connection check first, then total-time, then attempt count, then
capped linear backoff. -/
def retry_strategy (o : RetryOptions) : RetryDecision :=
  if errIsRefused o.error then
    RetryDecision.fatal "The server refused the connection"
  else if o.total_retry_time > 1000 * 60 * 60 then
    RetryDecision.fatal "Retry time exhausted"
  else if o.attempt > 10 then
    RetryDecision.stop
  else
    RetryDecision.wait (min (o.attempt * 100) 3000)

/-- Embedding of the `tls` block assigned in `redisOptions`. -/
structure TlsConfig where
  cert : String
  ca : List String
deriving DecidableEq, Repr

/-- The data fields of the options object built by `redisOptions`
(the `retry_strategy` function field is embedded separately above). -/
structure RedisOptions where
  no_ready_check : Bool
  enable_offline_queue : Bool
  password : Option String
  tls : Option TlsConfig
deriving DecidableEq, Repr

/-- Embedding of `redisOptions` from `src/redisClient.js`, as written: the
base object, the conditional `password` assignment, and the `tls` block
assigned twice under the same `REDIS_CA !== ''` guard. -/
def redisOptions (REDIS_PASSWORD REDIS_CA : String) : RedisOptions :=
  let options : RedisOptions :=
    { no_ready_check := true, enable_offline_queue := true,
      password := none, tls := none }
  let options :=
    if REDIS_PASSWORD ≠ "" then { options with password := some REDIS_PASSWORD }
    else options
  let options :=
    if REDIS_CA ≠ "" then
      { options with tls := some { cert := REDIS_CA, ca := [REDIS_CA] } }
    else options
  let options :=
    if REDIS_CA ≠ "" then
      { options with tls := some { cert := REDIS_CA, ca := [REDIS_CA] } }
    else options
  options

/-- The same builder with the duplicated `tls` assignment collapsed to a
single one, for the refinement claim about the dead duplicate code. -/
def redisOptionsSingleTls (REDIS_PASSWORD REDIS_CA : String) : RedisOptions :=
  let options : RedisOptions :=
    { no_ready_check := true, enable_offline_queue := true,
      password := none, tls := none }
  let options :=
    if REDIS_PASSWORD ≠ "" then { options with password := some REDIS_PASSWORD }
    else options
  let options :=
    if REDIS_CA ≠ "" then
      { options with tls := some { cert := REDIS_CA, ca := [REDIS_CA] } }
    else options
  options

/-- JavaScript template-literal rendering of a `string | undefined` value:
`undefined` interpolates as the text "undefined". -/
def jsStr : Option String → String
  | some s => s
  | none => "undefined"

/-- The environment variables consumed by the middleware module.
`APP_DOMAIN`, `NODE_ENV` and `PUBLIC_DOMAIN` are destructured without a
default and may be `undefined`; `WHITELIST_IP` defaults to the empty
string. -/
structure Env where
  APP_DOMAIN : Option String
  NODE_ENV : Option String
  PUBLIC_DOMAIN : Option String
  WHITELIST_IP : String
deriving DecidableEq, Repr

/-- The request attributes the middleware functions read: the `host`
header, the `x-forwarded-proto` and `x-forwarded-for` headers (any header
lookup may yield `undefined`), the connection IP, the path, and the
original URL. -/
structure Req where
  host : Option String
  xForwardedProto : Option String
  xForwardedFor : Option String
  ip : String
  path : String
  originalUrl : String
deriving DecidableEq, Repr

/-- What a middleware call does to the request: continue the chain
(`next()`), issue a redirect (`res.redirect(status, location)`), or send a
response (`res.send` / `res.status(...).send(...)`; a bare `res.send`
responds with status 200). -/
inductive MwAction where
  | next
  | redirect (status : Nat) (location : String)
  | send (status : Nat) (body : String)
deriving DecidableEq, Repr

/-- Embedding of `isAppDomainOnProduction`:
`APP_DOMAIN !== '' && PUBLIC_DOMAIN !== '' && req.headers.host === APP_DOMAIN`. -/
def isAppDomainOnProduction (env : Env) (req : Req) : Bool :=
  env.APP_DOMAIN ≠ some "" && env.PUBLIC_DOMAIN ≠ some "" &&
    req.host = env.APP_DOMAIN

/-- Embedding of `isNonSecurePublicDomainOnProduction`:
`PUBLIC_DOMAIN !== '' && req.headers.host === PUBLIC_DOMAIN &&
req.header('x-forwarded-proto') !== 'https'`. -/
def isNonSecurePublicDomainOnProduction (env : Env) (req : Req) : Bool :=
  env.PUBLIC_DOMAIN ≠ some "" && req.host = env.PUBLIC_DOMAIN &&
    req.xForwardedProto ≠ some "https"

/-- Embedding of `forceDomainSSL`: the switch on `NODE_ENV` with cases
`local`, `review`/`staging`, `production`, and the pass-through default. -/
def forceDomainSSL (env : Env) (req : Req) : MwAction :=
  match env.NODE_ENV with
  | some "local" => MwAction.next
  | some "review" | some "staging" =>
      if req.xForwardedProto ≠ some "https" then
        MwAction.redirect 302 ("https://" ++ jsStr req.host ++ req.originalUrl)
      else
        MwAction.next
  | some "production" =>
      if isAppDomainOnProduction env req then
        MwAction.redirect 302
          ("https://" ++ jsStr env.PUBLIC_DOMAIN ++ req.originalUrl)
      else if isNonSecurePublicDomainOnProduction env req then
        MwAction.redirect 302 ("https://" ++ jsStr req.host ++ req.originalUrl)
      else
        MwAction.next
  | _ => MwAction.next

/-- Embedding of the regex test `req.path.match(/\.map$/i)`: the path's
last four characters are a literal dot followed by `m`, `a`, `p`, each
letter matched case-insensitively. -/
def matchesMapRegex (p : String) : Bool :=
  match p.data.reverse with
  | pc :: ac :: mc :: dot :: _ =>
      (pc = 'p' || pc = 'P') && (ac = 'a' || ac = 'A') &&
        (mc = 'm' || mc = 'M') && dot = '.'
  | _ => false

/-- Embedding of `skipMap`: answer `.map` requests with an empty 200
response, pass everything else through. -/
def skipMap (req : Req) : MwAction :=
  if matchesMapRegex req.path then MwAction.send 200 ""
  else MwAction.next

/-- Embedding of JavaScript `String.prototype.split(',')` on the list of
characters: splitting the empty string yields one empty field, and each
comma closes the current field. -/
def splitCommaChars : List Char → List (List Char)
  | [] => [[]]
  | c :: cs =>
      match splitCommaChars cs with
      | r :: rs => if c = ',' then [] :: r :: rs else (c :: r) :: rs
      | [] => if c = ',' then [[], []] else [[c]]

/-- Embedding of JavaScript `s.split(',')` on strings. -/
def splitComma (s : String) : List String :=
  (splitCommaChars s.data).map (fun cs => String.mk cs)

/-- Embedding of `req.get(FORWARDED_IP_HEADER) || req.ip` inside
`whitelistIp`: JavaScript `||` takes the right operand when the left one
is `undefined` or the empty string (both falsy). -/
def requestIp (req : Req) : String :=
  match req.xForwardedFor with
  | some s => if s = "" then req.ip else s
  | none => req.ip

/-- Embedding of `whitelistIp`: pass through when the whitelist is the
empty string, otherwise admit exactly the request IPs that equal one of
the comma-separated substrings of the whitelist, and reject the rest with
a 403. -/
def whitelistIp (env : Env) (req : Req) : MwAction :=
  if env.WHITELIST_IP = "" then MwAction.next
  else if (splitComma env.WHITELIST_IP).contains (requestIp req) then
    MwAction.next
  else
    MwAction.send 403 "Forbidden: Access is denied."

/-- The IP-selection rule as claim C10 words it: the `x-forwarded-for`
header value whenever the header is present, otherwise the connection IP
(no exception for a present-but-empty header). -/
def requestIpClaimed (req : Req) : String :=
  match req.xForwardedFor with
  | some s => s
  | none => req.ip

/-- The whitelist middleware as claim C10 words it: identical to
`whitelistIp` except that the compared IP is `requestIpClaimed`. -/
def whitelistIpClaimed (env : Env) (req : Req) : MwAction :=
  if env.WHITELIST_IP = "" then MwAction.next
  else if (splitComma env.WHITELIST_IP).contains (requestIpClaimed req) then
    MwAction.next
  else
    MwAction.send 403 "Forbidden: Access is denied."

/-- The whitelist middleware with the amended IP-selection rule: the
`x-forwarded-for` value when present and non-empty, otherwise the
connection IP. -/
def whitelistIpAmended (env : Env) (req : Req) : MwAction :=
  if env.WHITELIST_IP = "" then MwAction.next
  else
    let amended_ip :=
      match req.xForwardedFor with
      | some s => if s = "" then req.ip else s
      | none => req.ip
    if (splitComma env.WHITELIST_IP).contains amended_ip then
      MwAction.next
    else
      MwAction.send 403 "Forbidden: Access is denied."

/-! ## Theorems about the retry policy -/

/-- Claim C1, counterexample: at attempt count 11 with an `ECONNREFUSED`
error, `retry_strategy` returns the fatal refused-connection error, not
the silent stop — the refused-connection check runs before the
attempt-count check, so "stop regardless of error type" is false. -/
theorem retry_attempt11_refused_is_fatal_not_stop :
    retry_strategy ⟨some ⟨some "ECONNREFUSED"⟩, 0, 11⟩ =
      RetryDecision.fatal "The server refused the connection" ∧
    retry_strategy ⟨some ⟨some "ECONNREFUSED"⟩, 0, 11⟩ ≠ RetryDecision.stop := by
  constructor
  · rfl
  · decide

/-- Claim C1 (amended): for any error state with attempt count exceeding
10 whose error is not a refused connection and whose cumulative retry time
does not exceed one hour, the retry policy returns the silent stop. -/
theorem retry_attempt_exceeding_ten_stops (o : RetryOptions)
    (h1 : errIsRefused o.error = false)
    (h2 : o.total_retry_time ≤ 1000 * 60 * 60)
    (h3 : o.attempt > 10) :
    retry_strategy o = RetryDecision.stop := by
  unfold retry_strategy
  rw [h1]
  simp only [Bool.false_eq_true, if_false]
  rw [if_neg (by omega), if_pos h3]

/-- Witness for the amended claim C1 at a concrete input. -/
theorem retry_attempt_exceeding_ten_stops_witness :
    retry_strategy ⟨none, 1000 * 60 * 60, 11⟩ = RetryDecision.stop :=
  retry_attempt_exceeding_ten_stops ⟨none, 1000 * 60 * 60, 11⟩
    rfl (by decide) (by decide)

/-- Claim C2: whenever the most recent error has code `ECONNREFUSED`, the
retry policy returns the fatal refused-connection error, on any attempt
count and for any cumulative retry time — the check precedes the
total-time and attempt-count checks. -/
theorem retry_refused_is_fatal (o : RetryOptions)
    (h : errIsRefused o.error = true) :
    retry_strategy o = RetryDecision.fatal "The server refused the connection" := by
  unfold retry_strategy
  rw [h]
  simp

/-- Witness for claim C2: a refused connection at a large attempt count
and a cumulative retry time above one hour is still fatal. -/
theorem retry_refused_is_fatal_witness :
    retry_strategy ⟨some ⟨some "ECONNREFUSED"⟩, 99999999, 42⟩ =
      RetryDecision.fatal "The server refused the connection" :=
  retry_refused_is_fatal ⟨some ⟨some "ECONNREFUSED"⟩, 99999999, 42⟩ rfl

/-- Claim C3: for attempt counts 1 to 10 with a non-refused error and
cumulative retry time at most one hour, the policy waits
`min(attempt * 100, 3000)` milliseconds, and that delay is monotonically
non-decreasing in the attempt count. -/
theorem retry_backoff_linear_capped :
    (∀ o : RetryOptions, 1 ≤ o.attempt → o.attempt ≤ 10 →
      errIsRefused o.error = false → o.total_retry_time ≤ 1000 * 60 * 60 →
      retry_strategy o = RetryDecision.wait (min (o.attempt * 100) 3000)) ∧
    (∀ a b : Nat, a ≤ b → min (a * 100) 3000 ≤ min (b * 100) 3000) := by
  constructor
  · intro o _ h2 h3 h4
    unfold retry_strategy
    rw [h3]
    simp only [Bool.false_eq_true, if_false]
    rw [if_neg (by omega), if_neg (by omega)]
  · intro a b hab
    omega

/-- Witness for claim C3 at attempt counts 3 and 4. -/
theorem retry_backoff_linear_capped_witness :
    retry_strategy ⟨some ⟨some "ETIMEDOUT"⟩, 5000, 3⟩ =
      RetryDecision.wait (min (3 * 100) 3000) ∧
    min (3 * 100) 3000 ≤ min (4 * 100) 3000 :=
  ⟨retry_backoff_linear_capped.1 ⟨some ⟨some "ETIMEDOUT"⟩, 5000, 3⟩
      (by decide) (by decide) rfl (by decide),
   retry_backoff_linear_capped.2 3 4 (by decide)⟩

/-- Claim C4: with a non-refused error and cumulative retry time strictly
above 3,600,000 ms, the policy returns the fatal retry-time-exhausted
error regardless of attempt count. -/
theorem retry_time_exhausted_is_fatal (o : RetryOptions)
    (h1 : errIsRefused o.error = false)
    (h2 : o.total_retry_time > 1000 * 60 * 60) :
    retry_strategy o = RetryDecision.fatal "Retry time exhausted" := by
  unfold retry_strategy
  rw [h1]
  simp only [Bool.false_eq_true, if_false]
  rw [if_pos (by omega)]

/-- Witness for claim C4 at attempt count 1 and time just above one hour. -/
theorem retry_time_exhausted_is_fatal_witness :
    retry_strategy ⟨none, 3600001, 1⟩ =
      RetryDecision.fatal "Retry time exhausted" :=
  retry_time_exhausted_is_fatal ⟨none, 3600001, 1⟩ rfl (by decide)

/-! ## Theorems about the middleware -/

/-- Claim C5: in production mode with both domains configured non-empty
and the request host equal to the app domain, `forceDomainSSL` issues a
302 redirect to `https://{public domain}{original URL}` and does not call
`next`. -/
theorem forceDomainSSL_production_app_domain_redirects
    (env : Env) (req : Req) (a p : String)
    (hN : env.NODE_ENV = some "production")
    (hA : env.APP_DOMAIN = some a) (ha : a ≠ "")
    (hP : env.PUBLIC_DOMAIN = some p) (hp : p ≠ "")
    (hh : req.host = some a) :
    forceDomainSSL env req =
      MwAction.redirect 302 ("https://" ++ p ++ req.originalUrl) := by
  unfold forceDomainSSL
  rw [hN]
  have hcond : isAppDomainOnProduction env req = true := by
    unfold isAppDomainOnProduction
    rw [hA, hP, hh]
    simp [ha, hp]
  rw [if_pos hcond, hP]
  rfl

/-- Witness for claim C5 at a concrete environment and request. -/
theorem forceDomainSSL_production_app_domain_redirects_witness :
    forceDomainSSL
      ⟨some "app.herokuapp.com", some "production", some "example.com", ""⟩
      ⟨some "app.herokuapp.com", some "https", none, "1.2.3.4", "/p", "/p?q=1"⟩ =
      MwAction.redirect 302 ("https://" ++ "example.com" ++ "/p?q=1") :=
  forceDomainSSL_production_app_domain_redirects
    ⟨some "app.herokuapp.com", some "production", some "example.com", ""⟩
    ⟨some "app.herokuapp.com", some "https", none, "1.2.3.4", "/p", "/p?q=1"⟩
    "app.herokuapp.com" "example.com" rfl rfl (by decide) rfl (by decide) rfl

/-- Claim C6, counterexample: with both domains configured empty but mode
`review`, a non-HTTPS request is redirected, not passed through — empty
domain configuration does not degrade `forceDomainSSL` to "always pass
through" in every mode. -/
theorem forceDomainSSL_empty_domains_review_redirects :
    forceDomainSSL ⟨some "", some "review", some "", ""⟩
      ⟨some "example.com", none, none, "1.1.1.1", "/x", "/x"⟩ =
      MwAction.redirect 302 "https://example.com/x" ∧
    forceDomainSSL ⟨some "", some "review", some "", ""⟩
      ⟨some "example.com", none, none, "1.1.1.1", "/x", "/x"⟩ ≠
      MwAction.next := by
  constructor
  · rfl
  · decide

/-- Claim C6 (amended): every middleware function is a total function
(no exception on any input), and in production mode with the app domain
and public domain configured as empty strings `forceDomainSSL` passes
every request through to the next handler. -/
theorem forceDomainSSL_empty_domains_production_passes
    (env : Env) (req : Req)
    (hN : env.NODE_ENV = some "production")
    (hA : env.APP_DOMAIN = some "")
    (hP : env.PUBLIC_DOMAIN = some "") :
    forceDomainSSL env req = MwAction.next := by
  unfold forceDomainSSL
  rw [hN]
  have h1 : isAppDomainOnProduction env req = false := by
    unfold isAppDomainOnProduction
    rw [hA]
    simp
  have h2 : isNonSecurePublicDomainOnProduction env req = false := by
    unfold isNonSecurePublicDomainOnProduction
    rw [hP]
    simp
  rw [h1, h2]
  rfl

/-- Witness for the amended claim C6 at a concrete environment and
request. -/
theorem forceDomainSSL_empty_domains_production_passes_witness :
    forceDomainSSL ⟨some "", some "production", some "", ""⟩
      ⟨some "example.com", none, none, "1.1.1.1", "/x", "/x"⟩ =
      MwAction.next :=
  forceDomainSSL_empty_domains_production_passes
    ⟨some "", some "production", some "", ""⟩
    ⟨some "example.com", none, none, "1.1.1.1", "/x", "/x"⟩ rfl rfl rfl

/-- Claim C7: with a non-empty whitelist and a request IP (forwarded
header if truthy, else connection IP) outside the comma-separated list,
`whitelistIp` responds 403 with the plain-text Forbidden body and does not
call `next`. -/
theorem whitelistIp_rejects_unlisted (env : Env) (req : Req)
    (h1 : env.WHITELIST_IP ≠ "")
    (h2 : (splitComma env.WHITELIST_IP).contains (requestIp req) = false) :
    whitelistIp env req = MwAction.send 403 "Forbidden: Access is denied." := by
  unfold whitelistIp
  rw [if_neg h1, h2]
  simp

/-- Witness for claim C7 at the specification's example: whitelist
`1.2.3.4,5.6.7.8`, request IP `9.9.9.9`. -/
theorem whitelistIp_rejects_unlisted_witness :
    whitelistIp ⟨none, none, none, "1.2.3.4,5.6.7.8"⟩
      ⟨none, none, none, "9.9.9.9", "/", "/"⟩ =
      MwAction.send 403 "Forbidden: Access is denied." :=
  whitelistIp_rejects_unlisted ⟨none, none, none, "1.2.3.4,5.6.7.8"⟩
    ⟨none, none, none, "9.9.9.9", "/", "/"⟩ (by decide) (by decide)

/-- Claim C8: a request whose path matches `/\.map$/i` gets a 200 response
with an empty body and the chain stops; every other path is passed
through to the next handler. -/
theorem skipMap_suppresses_maps (req : Req) :
    (matchesMapRegex req.path = true → skipMap req = MwAction.send 200 "") ∧
    (matchesMapRegex req.path = false → skipMap req = MwAction.next) := by
  constructor
  · intro h
    unfold skipMap
    rw [if_pos h]
  · intro h
    unfold skipMap
    rw [h]
    simp

/-- Witness for claim C8 at the paths `/app.js.map` and `/index.html`. -/
theorem skipMap_suppresses_maps_witness :
    skipMap ⟨none, none, none, "1.1.1.1", "/app.js.map", "/app.js.map"⟩ =
      MwAction.send 200 "" ∧
    skipMap ⟨none, none, none, "1.1.1.1", "/index.html", "/index.html"⟩ =
      MwAction.next :=
  ⟨(skipMap_suppresses_maps
      ⟨none, none, none, "1.1.1.1", "/app.js.map", "/app.js.map"⟩).1 (by decide),
   (skipMap_suppresses_maps
      ⟨none, none, none, "1.1.1.1", "/index.html", "/index.html"⟩).2 (by decide)⟩

/-- Claim C9: collapsing the duplicated TLS assignment in `redisOptions`
to a single assignment yields an identical options object for every
environment configuration. -/
theorem redisOptions_duplicate_tls_is_dead_code
    (REDIS_PASSWORD REDIS_CA : String) :
    redisOptions REDIS_PASSWORD REDIS_CA =
      redisOptionsSingleTls REDIS_PASSWORD REDIS_CA := by
  unfold redisOptions redisOptionsSingleTls
  by_cases h : REDIS_CA = "" <;> simp [h]

/-- Claim C10, counterexample: with the whitelist `1.2.3.4`, connection IP
`1.2.3.4` and a present-but-empty `x-forwarded-for` header, the code
passes the request through (JavaScript `||` skips the falsy empty header),
while the claim's rule — header value whenever the header is present —
would compare the empty string and respond 403. -/
theorem whitelistIp_empty_forwarded_header_differs :
    whitelistIp ⟨none, none, none, "1.2.3.4"⟩
      ⟨none, none, some "", "1.2.3.4", "/", "/"⟩ = MwAction.next ∧
    whitelistIpClaimed ⟨none, none, none, "1.2.3.4"⟩
      ⟨none, none, some "", "1.2.3.4", "/", "/"⟩ =
      MwAction.send 403 "Forbidden: Access is denied." := by
  constructor
  · decide
  · decide

/-- Claim C10 (amended): the whitelist middleware splits the configured
list on commas only and compares by exact string equality with no
trimming — so `1.2.3.4, 5.6.7.8` rejects the bare IP `5.6.7.8` — and the
compared IP is the `x-forwarded-for` value when present and non-empty,
otherwise the connection IP. -/
theorem whitelistIp_exact_untrimmed_match :
    (∀ (env : Env) (req : Req),
      whitelistIp env req = whitelistIpAmended env req) ∧
    whitelistIp ⟨none, none, none, "1.2.3.4, 5.6.7.8"⟩
      ⟨none, none, none, "5.6.7.8", "/", "/"⟩ =
      MwAction.send 403 "Forbidden: Access is denied." := by
  constructor
  · intro env req
    rfl
  · decide

end HerokuRedisApi
